import Mathlib

/-!
# Verification of the EasyFEA Gauss quadrature engine

Shallow embedding of `EasyFEA/fem/_gauss.py` (class `Gauss`): the per-family
integration-rule tables `_Triangle`, `_Quadrangle`, `_Tetrahedron`,
`_Hexahedron`, `_Prism`, and the dispatcher `_Gauss_factory`.

Real scalars model the floating-point values of the source: every table entry
of the source is a closed-form expression (a rational literal or a square
root), transcribed literally.  Python's `UnboundLocalError` (reached when an
`if`/`elif` ladder assigns neither `nPg` nor the coordinate arrays) and the
`Exception("Element not implemented.")` of the final `else` are modelled by an
explicit error type, so the factory is a total function into `Except`.
-/

namespace EasyFEA

/-- Modelled from the spec: `MatrixType` lives in `fem/_utils.py`, which is not
part of the excerpt.  The spec's `PrecisionTag` is a closed enumeration
stiffness (`rigi`) / `mass` / `beam`; these are exactly the members the factory
dispatches on, and `MatrixType.Get_types()` registers all three, so the
factory's entry assertion always passes. -/
inductive MatrixType
  | rigi
  | mass
  | beam
deriving DecidableEq

/-- Modelled from the spec: `ElemType` lives in `fem/_utils.py`, which is not
part of the excerpt.  The constructors below are the fifteen element types the
factory's `if`/`elif` ladder catalogues; `other s` stands for any further
member of the element-type enumeration (or any other string), all of which
reach the factory's final `else` branch. -/
inductive ElemType
  | SEG2 | SEG3 | SEG4
  | TRI3 | TRI6 | TRI10
  | QUAD4 | QUAD8 | QUAD9
  | TETRA4 | TETRA10
  | HEXA8 | HEXA20
  | PRISM6 | PRISM15
  | other (s : String)
deriving DecidableEq

/-- Failure modes of `Gauss._Gauss_factory`: the explicit
`raise Exception("Element not implemented.")` of the final `else`, and
Python's `UnboundLocalError` for a variable (`nPg` or `x`) read before any
branch assigned it. -/
inductive GaussError
  | notImplemented (msg : String)
  | unboundLocal (var : String)
deriving DecidableEq

/-- `numpy.polynomial.legendre.leggauss(nPg)`, modelled from the spec: the
canonical Gauss–Legendre nodes (ascending) and weights on `[-1, 1]`, for the
point counts the factory requests (1, 2, 3, 4, 6).  Counts 1–4 are the exact
closed forms; for 6 the nodes and weights are the canonical published values
to 15 digits. -/
noncomputable def leggauss : ℕ → List ℝ × List ℝ
  | 1 => ([0], [2])
  | 2 => ([-(1 / Real.sqrt 3), 1 / Real.sqrt 3], [1, 1])
  | 3 => ([-Real.sqrt (3 / 5), 0, Real.sqrt (3 / 5)], [5 / 9, 8 / 9, 5 / 9])
  | 4 =>
    ([-Real.sqrt (3 / 7 + 2 / 7 * Real.sqrt (6 / 5)),
      -Real.sqrt (3 / 7 - 2 / 7 * Real.sqrt (6 / 5)),
      Real.sqrt (3 / 7 - 2 / 7 * Real.sqrt (6 / 5)),
      Real.sqrt (3 / 7 + 2 / 7 * Real.sqrt (6 / 5))],
     [(18 - Real.sqrt 30) / 36, (18 + Real.sqrt 30) / 36,
      (18 + Real.sqrt 30) / 36, (18 - Real.sqrt 30) / 36])
  | 6 =>
    ([-0.932469514203152, -0.661209386466265, -0.238619186083197,
      0.238619186083197, 0.661209386466265, 0.932469514203152],
     [0.171324492379170, 0.360761573048139, 0.467913934572691,
      0.467913934572691, 0.360761573048139, 0.171324492379170])
  | _ => ([], [])

/-- `Gauss._Triangle(nPg)`: hand-tabulated triangle rules, available point
counts 1, 3, 6, 7, 12 (orders 1, 2, 3, 4, 5).  Returns `(ksis, etas, weights)`.
The scalar case `nPg = 1` is returned as singleton lists (the factory reshapes
to an `nPg × 2` array either way).  Constants are transcribed digit-for-digit
from the source. -/
noncomputable def Gauss_Triangle : ℕ → List ℝ × List ℝ × List ℝ
  | 1 => ([1 / 3], [1 / 3], [1 / 2])
  | 3 => ([1 / 6, 2 / 3, 1 / 6], [1 / 6, 1 / 6, 2 / 3], [1 / 6, 1 / 6, 1 / 6])
  | 6 =>
    let a : ℝ := 0.445948490915965
    let b : ℝ := 0.091576213509771
    let p1 : ℝ := 0.11169079483905
    let p2 : ℝ := 0.0549758718227661
    ([b, 1 - 2 * b, b, a, a, 1 - 2 * a],
     [b, b, 1 - 2 * b, 1 - 2 * a, a, a],
     [p2, p2, p2, p1, p1, p1])
  | 7 =>
    let a : ℝ := 0.470142064105115
    let b : ℝ := 0.101286507323456
    let p1 : ℝ := 0.066197076394253
    let p2 : ℝ := 0.062969590272413
    ([1 / 3, a, 1 - 2 * a, a, b, 1 - 2 * b, b],
     [1 / 3, a, a, 1 - 2 * a, b, b, 1 - 2 * b],
     [9 / 80, p1, p1, p1, p2, p2, p2])
  | 12 =>
    let a : ℝ := 0.063089014491502
    let b : ℝ := 0.249286745170910
    let c : ℝ := 0.310352451033785
    let d : ℝ := 0.053145049844816
    let p1 : ℝ := 0.025422453185103
    let p2 : ℝ := 0.058393137863189
    let p3 : ℝ := 0.041425537809187
    ([a, 1 - 2 * a, a, b, 1 - 2 * b, b, c, d, 1 - c - d, 1 - c - d, c, d],
     [a, a, 1 - 2 * a, b, b, 1 - 2 * b, d, c, c, d, 1 - c - d, 1 - c - d],
     [p1, p1, p1, p2, p2, p2, p3, p3, p3, p3, p3, p3])
  | _ => ([], [], [])

/-- `Gauss._Quadrangle(nPg)`: tensor-product quadrilateral rules, available
point counts 4, 9 (orders 1, 2).  Returns `(ksis, etas, weights)`. -/
noncomputable def Gauss_Quadrangle : ℕ → List ℝ × List ℝ × List ℝ
  | 4 =>
    let a : ℝ := 1 / Real.sqrt 3
    ([-a, a, a, -a], [-a, -a, a, a], List.replicate 4 1)
  | 9 =>
    let a : ℝ := 0.774596669241483
    ([-a, a, a, -a, 0, a, 0, -a, 0],
     [-a, -a, a, a, -a, 0, a, 0, 0],
     [25 / 81, 25 / 81, 25 / 81, 25 / 81, 40 / 81, 40 / 81, 40 / 81, 40 / 81,
      64 / 81])
  | _ => ([], [], [])

/-- `Gauss._Tetrahedron(nPg)`: tetrahedron rules, available point counts
1, 4, 5, 15 (orders 1, 2, 3, 5).  Returns `(x, y, z, weights)`; the scalar
case `nPg = 1` is returned as singleton lists. -/
noncomputable def Gauss_Tetrahedron : ℕ → List ℝ × List ℝ × List ℝ × List ℝ
  | 1 => ([1 / 4], [1 / 4], [1 / 4], [1 / 6])
  | 4 =>
    let a : ℝ := (5 - Real.sqrt 5) / 20
    let b : ℝ := (5 + 3 * Real.sqrt 5) / 20
    ([a, a, a, b], [a, a, b, a], [a, b, a, a], List.replicate 4 (1 / 24))
  | 5 =>
    let a : ℝ := 1 / 4
    let b : ℝ := 1 / 6
    let c : ℝ := 1 / 2
    ([a, b, b, b, c], [a, b, b, c, b], [a, b, c, b, b],
     [-2 / 15, 3 / 40, 3 / 40, 3 / 40, 3 / 40])
  | 15 =>
    let a : ℝ := 1 / 4
    let b1 : ℝ := (7 + Real.sqrt 15) / 34
    let b2 : ℝ := (7 - Real.sqrt 15) / 34
    let c1 : ℝ := (13 - 3 * Real.sqrt 15) / 34
    let c2 : ℝ := (13 + 3 * Real.sqrt 15) / 34
    let d : ℝ := (5 - Real.sqrt 15) / 20
    let e : ℝ := (5 + Real.sqrt 15) / 20
    let p1 : ℝ := 8 / 405
    let p2 : ℝ := (2665 - 14 * Real.sqrt 15) / 226800
    let p3 : ℝ := (2665 + 14 * Real.sqrt 15) / 226800
    let p4 : ℝ := 5 / 567
    ([a, b1, b1, b1, c1, b2, b2, b2, c2, d, d, e, d, e, e],
     [a, b1, b1, c1, b1, b2, b2, c2, b2, d, e, d, e, d, e],
     [a, b1, c1, b1, b1, b2, c2, b2, b2, e, d, d, e, e, d],
     [p1, p2, p2, p2, p2, p3, p3, p3, p3, p4, p4, p4, p4, p4, p4])
  | _ => ([], [], [], [])

/-- `Gauss._Hexahedron(nPg)`: tensor-product hexahedron rules, available point
counts 8, 27 (orders 3, 5).  Returns `(x, y, z, weights)`. -/
noncomputable def Gauss_Hexahedron : ℕ → List ℝ × List ℝ × List ℝ × List ℝ
  | 8 =>
    let a : ℝ := 1 / Real.sqrt 3
    ([-a, -a, -a, -a, a, a, a, a],
     [-a, -a, a, a, -a, -a, a, a],
     [-a, a, -a, a, -a, a, -a, a],
     List.replicate 8 1)
  | 27 =>
    let a : ℝ := Real.sqrt (3 / 5)
    let c1 : ℝ := 5 / 9
    let c2 : ℝ := 8 / 9
    let c13 : ℝ := c1 ^ 3
    let c23 : ℝ := c2 ^ 3
    let c12 : ℝ := c1 ^ 2 * c2
    let c22 : ℝ := c1 * c2 ^ 2
    (List.replicate 9 (-a) ++ List.replicate 9 0 ++ List.replicate 9 a,
     [-a, -a, -a, 0, 0, 0, a, a, a] ++ [-a, -a, -a, 0, 0, 0, a, a, a] ++
       [-a, -a, -a, 0, 0, 0, a, a, a],
     List.flatten (List.replicate 9 [-a, 0, a]),
     [c13, c12, c13, c12, c22, c12, c13, c12, c13,
      c12, c22, c12, c22, c23, c22, c12, c22, c12,
      c13, c12, c13, c12, c22, c12, c13, c12, c13])
  | _ => ([], [], [], [])

/-- Local array `X` of `Gauss._Prism(6)`: the through-thickness Gauss
coordinates, computed before the axis permutation. -/
noncomputable def Prism6_X : List ℝ :=
  [-(1 / Real.sqrt 3), -(1 / Real.sqrt 3), -(1 / Real.sqrt 3),
   1 / Real.sqrt 3, 1 / Real.sqrt 3, 1 / Real.sqrt 3]

/-- Local array `Y` of `Gauss._Prism(6)`: first in-plane coordinate. -/
noncomputable def Prism6_Y : List ℝ := [0.5, 0, 0.5, 0.5, 0, 0.5]

/-- Local array `Z` of `Gauss._Prism(6)`: second in-plane coordinate. -/
noncomputable def Prism6_Z : List ℝ := [0.5, 0.5, 0, 0.5, 0.5, 0]

/-- Weights of `Gauss._Prism(6)`: `[1/6]*6`. -/
noncomputable def Prism6_w : List ℝ := List.replicate 6 (1 / 6)

/-- Local array `X` of `Gauss._Prism(8)` (`a = 0.577350269189626` in the
source, a decimal rendering of `1/sqrt(3)`). -/
noncomputable def Prism8_X : List ℝ :=
  [-0.577350269189626, -0.577350269189626, -0.577350269189626,
   -0.577350269189626, 0.577350269189626, 0.577350269189626,
   0.577350269189626, 0.577350269189626]

/-- Local array `Y` of `Gauss._Prism(8)`: `[1/3, 0.6, 0.2, 0.2]*2`. -/
noncomputable def Prism8_Y : List ℝ :=
  [1 / 3, 0.6, 0.2, 0.2] ++ [1 / 3, 0.6, 0.2, 0.2]

/-- Local array `Z` of `Gauss._Prism(8)`: `[1/3, 0.2, 0.6, 0.2]*2`. -/
noncomputable def Prism8_Z : List ℝ :=
  [1 / 3, 0.2, 0.6, 0.2] ++ [1 / 3, 0.2, 0.6, 0.2]

/-- Weights of `Gauss._Prism(8)`: `[-27/96, 25/96, 25/96, 25/96]*2`. -/
noncomputable def Prism8_w : List ℝ :=
  [-27 / 96, 25 / 96, 25 / 96, 25 / 96] ++ [-27 / 96, 25 / 96, 25 / 96, 25 / 96]

/-- `Gauss._Prism(nPg)`: prism (wedge) rules, available point counts 6, 8.
The source computes local arrays `X` (through thickness), `Y`, `Z` (in-plane)
and then exposes the permuted axes `x = Y`, `y = Z`, `z = X`
(`# X, Y, Z -> base code aster / z, x, y -> gmsh`).  Returns
`(x, y, z, weights)` after that permutation. -/
noncomputable def Gauss_Prism : ℕ → List ℝ × List ℝ × List ℝ × List ℝ
  | 6 => (Prism6_Y, Prism6_Z, Prism6_X, Prism6_w)
  | 8 => (Prism8_Y, Prism8_Z, Prism8_X, Prism8_w)
  | _ => ([], [], [], [])

/-- Reshape for `dim == 1`: `np.asarray([x]).T.reshape((nPg, 1))` paired with
the weights. -/
noncomputable def mk1 (t : List ℝ × List ℝ) : List (List ℝ) × List ℝ :=
  (t.1.map fun u => [u], t.2)

/-- Reshape for `dim == 2`: `np.asarray([xis, etas]).T.reshape((nPg, 2))`
paired with the weights. -/
noncomputable def mk2 (t : List ℝ × List ℝ × List ℝ) : List (List ℝ) × List ℝ :=
  ((t.1.zip t.2.1).map fun p => [p.1, p.2], t.2.2)

/-- Reshape for `dim == 3`: `np.asarray([x, y, z]).T.reshape((nPg, 3))` paired
with the weights. -/
noncomputable def mk3 (t : List ℝ × List ℝ × List ℝ × List ℝ) :
    List (List ℝ) × List ℝ :=
  (((t.1.zip t.2.1).zip t.2.2.1).map fun p => [p.1.1, p.1.2, p.2], t.2.2.2)

/-- `Gauss._Gauss_factory(elemType, matrixType)`: selects the point count for
the element/matrix type pair and dispatches to the family generator, returning
`(coord, weights)`.

Faithful to the source's `if`/`elif` ladders: where a catalogued element type
has no `nPg` case for the requested matrix type, the Python code reads an
unassigned local — `nPg` when the generator call sits after the ladder
(`TRI3`, `TRI6`, `QUAD8`, `TETRA4` with `beam`), or `x` at the final reshape
when the generator call sits inside the matrix-type `if` (`HEXA8`, `HEXA20`,
`PRISM6`, `PRISM15` with `beam`) — modelled as `GaussError.unboundLocal`.
An uncatalogued element type reaches
`raise Exception("Element not implemented.")`. -/
noncomputable def Gauss_factory (elemType : ElemType) (matrixType : MatrixType) :
    Except GaussError (List (List ℝ) × List ℝ) :=
  match elemType with
  | .SEG2 =>
    let nPg : ℕ := match matrixType with | .rigi => 1 | .mass => 2 | .beam => 2
    .ok (mk1 (leggauss nPg))
  | .SEG3 =>
    let nPg : ℕ := match matrixType with | .rigi => 1 | .mass => 3 | .beam => 4
    .ok (mk1 (leggauss nPg))
  | .SEG4 =>
    let nPg : ℕ := match matrixType with | .rigi => 2 | .mass => 4 | .beam => 6
    .ok (mk1 (leggauss nPg))
  | .TRI3 =>
    match matrixType with
    | .rigi => .ok (mk2 (Gauss_Triangle 1))
    | .mass => .ok (mk2 (Gauss_Triangle 3))
    | .beam => .error (.unboundLocal "nPg")
  | .TRI6 =>
    match matrixType with
    | .rigi => .ok (mk2 (Gauss_Triangle 3))
    | .mass => .ok (mk2 (Gauss_Triangle 6))
    | .beam => .error (.unboundLocal "nPg")
  | .TRI10 => .ok (mk2 (Gauss_Triangle 6))
  | .QUAD4 => .ok (mk2 (Gauss_Quadrangle 4))
  | .QUAD8 =>
    match matrixType with
    | .rigi => .ok (mk2 (Gauss_Quadrangle 4))
    | .mass => .ok (mk2 (Gauss_Quadrangle 9))
    | .beam => .error (.unboundLocal "nPg")
  | .QUAD9 => .ok (mk2 (Gauss_Quadrangle 9))
  | .TETRA4 =>
    match matrixType with
    | .rigi => .ok (mk3 (Gauss_Tetrahedron 1))
    | .mass => .ok (mk3 (Gauss_Tetrahedron 4))
    | .beam => .error (.unboundLocal "nPg")
  | .TETRA10 => .ok (mk3 (Gauss_Tetrahedron 4))
  | .HEXA8 =>
    match matrixType with
    | .rigi | .mass => .ok (mk3 (Gauss_Hexahedron 8))
    | .beam => .error (.unboundLocal "x")
  | .HEXA20 =>
    match matrixType with
    | .rigi | .mass => .ok (mk3 (Gauss_Hexahedron 8))
    | .beam => .error (.unboundLocal "x")
  | .PRISM6 =>
    match matrixType with
    | .rigi | .mass => .ok (mk3 (Gauss_Prism 6))
    | .beam => .error (.unboundLocal "x")
  | .PRISM15 =>
    match matrixType with
    | .rigi | .mass => .ok (mk3 (Gauss_Prism 6))
    | .beam => .error (.unboundLocal "x")
  | .other _ => .error (.notImplemented "Element not implemented.")

/-- Integration-point coordinates of a successfully constructed rule
(`Gauss.coord`); the empty list when the factory fails. -/
noncomputable def coordsOf (e : ElemType) (m : MatrixType) : List (List ℝ) :=
  match Gauss_factory e m with
  | .ok r => r.1
  | .error _ => []

/-- Integration-point weights of a successfully constructed rule
(`Gauss.weights`); the empty list when the factory fails. -/
noncomputable def weightsOf (e : ElemType) (m : MatrixType) : List ℝ :=
  match Gauss_factory e m with
  | .ok r => r.2
  | .error _ => []

/-- The error of a failed factory call, `none` on success. -/
def exceptError {α : Type} : Except GaussError α → Option GaussError
  | .ok _ => none
  | .error err => some err

/-- Element types catalogued by the factory's `if`/`elif` ladder. -/
def catalogued : ElemType → Bool
  | .other _ => false
  | _ => true

/-- The factory's complete failure behaviour, as a table: which
`(elemType, matrixType)` pairs fail, and how.  Catalogued element types whose
matrix type has no point-count entry hit an unbound local (`nPg` or `x`);
uncatalogued element types hit the fixed `"Element not implemented."`
exception; every other pair succeeds. -/
def failureTable : ElemType → MatrixType → Option GaussError
  | .TRI3, .beam | .TRI6, .beam | .QUAD8, .beam | .TETRA4, .beam =>
    some (.unboundLocal "nPg")
  | .HEXA8, .beam | .HEXA20, .beam | .PRISM6, .beam | .PRISM15, .beam =>
    some (.unboundLocal "x")
  | .other _, _ => some (.notImplemented "Element not implemented.")
  | _, _ => none

/-- Membership in the canonical unit right triangle: `ξ ≥ 0`, `η ≥ 0`,
`ξ + η ≤ 1` for a 2-coordinate point. -/
def inTriangleDom : List ℝ → Prop
  | [u, v] => 0 ≤ u ∧ 0 ≤ v ∧ u + v ≤ 1
  | _ => False

/-- Membership in the `[-1, 1]^dim` box: every coordinate between `-1` and
`1`. -/
def inBoxDom (p : List ℝ) : Prop :=
  p.Forall fun t => -1 ≤ t ∧ t ≤ 1

/-- Membership in the canonical unit tetrahedron: all three coordinates
non-negative with sum at most `1`. -/
def inTetraDom : List ℝ → Prop
  | [u, v, w] => 0 ≤ u ∧ 0 ≤ v ∧ 0 ≤ w ∧ u + v + w ≤ 1
  | _ => False

/-- Membership in the canonical prism: the in-plane pair inside the unit
triangle, the through-thickness coordinate in `[-1, 1]`. -/
def inPrismDom : List ℝ → Prop
  | [u, v, w] => 0 ≤ u ∧ 0 ≤ v ∧ u + v ≤ 1 ∧ -1 ≤ w ∧ w ≤ 1
  | _ => False

/-- The canonical reference-domain predicate for each catalogued shape family
(trivial for the segment family and for uncatalogued types, whose domains the
claim does not describe). -/
def refDomainOK : ElemType → List (List ℝ) → Prop
  | .TRI3, cs | .TRI6, cs | .TRI10, cs => cs.Forall inTriangleDom
  | .QUAD4, cs | .QUAD8, cs | .QUAD9, cs => cs.Forall inBoxDom
  | .HEXA8, cs | .HEXA20, cs => cs.Forall inBoxDom
  | .TETRA4, cs | .TETRA10, cs => cs.Forall inTetraDom
  | .PRISM6, cs | .PRISM15, cs => cs.Forall inPrismDom
  | _, _ => True

end EasyFEA

namespace EasyFEA

/-- C5: the 5-point tetrahedron rule contains exactly one negative weight,
`-2/15`, at the centroid point `(1/4, 1/4, 1/4)` (the first tabulated point),
balanced by four positive weights each equal to `3/40`. -/
theorem tetra5_single_negative_weight_at_centroid :
    mk3 (Gauss_Tetrahedron 5) =
      ([[1 / 4, 1 / 4, 1 / 4], [1 / 6, 1 / 6, 1 / 6], [1 / 6, 1 / 6, 1 / 2],
        [1 / 6, 1 / 2, 1 / 6], [1 / 2, 1 / 6, 1 / 6]],
       [-2 / 15, 3 / 40, 3 / 40, 3 / 40, 3 / 40]) ∧
    (-2 / 15 : ℝ) < 0 ∧ (0 : ℝ) < 3 / 40 :=
  ⟨rfl, by norm_num, by norm_num⟩

/-- C6: for the 20-node hexahedron, both the stiffness (`rigi`) and the mass
matrix types select the 8-point tensor-product rule — the same rule `HEXA8`
uses — and never the 27-point rule. -/
theorem hexa20_selects_8_point_rule :
    Gauss_factory .HEXA20 .rigi = Gauss_factory .HEXA8 .rigi ∧
    Gauss_factory .HEXA20 .mass = Gauss_factory .HEXA8 .mass ∧
    Gauss_factory .HEXA20 .rigi = .ok (mk3 (Gauss_Hexahedron 8)) ∧
    Gauss_factory .HEXA20 .mass = .ok (mk3 (Gauss_Hexahedron 8)) ∧
    (weightsOf .HEXA20 .rigi).length = 8 ∧
    (weightsOf .HEXA20 .mass).length = 8 :=
  ⟨rfl, rfl, rfl, rfl, rfl, rfl⟩

/-- C7: concrete scenarios — the stiffness triangle rule is one point at
`(1/3, 1/3)` with weight `1/2`; the 4-point quadrilateral rule has coordinates
`(±1/√3, ±1/√3)` in all four sign combinations, each with weight `1`; the
stiffness tetrahedron rule is one point at `(1/4, 1/4, 1/4)` with weight
`1/6`. -/
theorem concrete_scenarios_tri_quad_tetra :
    Gauss_factory .TRI3 .rigi = .ok ([[1 / 3, 1 / 3]], [1 / 2]) ∧
    Gauss_factory .QUAD4 .rigi =
      .ok ([[-(1 / Real.sqrt 3), -(1 / Real.sqrt 3)],
            [1 / Real.sqrt 3, -(1 / Real.sqrt 3)],
            [1 / Real.sqrt 3, 1 / Real.sqrt 3],
            [-(1 / Real.sqrt 3), 1 / Real.sqrt 3]],
           [1, 1, 1, 1]) ∧
    Gauss_factory .TETRA4 .rigi = .ok ([[1 / 4, 1 / 4, 1 / 4]], [1 / 6]) :=
  ⟨rfl, rfl, rfl⟩

/-- C10: for `QUAD4`, `QUAD9`, `TRI10` and `TETRA10` the factory ignores the
matrix type: any two registered matrix types produce identical rules. -/
theorem rule_independent_of_matrix_type :
    ∀ m1 m2 : MatrixType,
      Gauss_factory .QUAD4 m1 = Gauss_factory .QUAD4 m2 ∧
      Gauss_factory .QUAD9 m1 = Gauss_factory .QUAD9 m2 ∧
      Gauss_factory .TRI10 m1 = Gauss_factory .TRI10 m2 ∧
      Gauss_factory .TETRA10 m1 = Gauss_factory .TETRA10 m2 :=
  fun _ _ => ⟨rfl, rfl, rfl, rfl⟩

end EasyFEA

namespace EasyFEA

/-- C1: the per-family weight-sum property fails in the triangle family. The
6-point triangle rule (selected for `TRI6` with the mass matrix type, and for
`TRI10` with every matrix type) has tabulated weights summing to
`0.4999999999854483`, which misses the triangle measure `1/2` by
`1.45517e-11` — beyond the `1e-12` floating-point tolerance.  The two weight
constants are mistyped renderings of the published values
`0.1116907948390055` and `0.0549758718276610`. -/
theorem tri6_weight_sum_misses_half :
    (weightsOf .TRI6 .mass).sum = 4999999999854483 / 10 ^ 16 ∧
    1 / 10 ^ 12 < |(weightsOf .TRI6 .mass).sum - 1 / 2| := by
  have h : weightsOf .TRI6 .mass =
      [0.0549758718227661, 0.0549758718227661, 0.0549758718227661,
       0.11169079483905, 0.11169079483905, 0.11169079483905] := rfl
  have hs : (weightsOf .TRI6 .mass).sum = 4999999999854483 / 10 ^ 16 := by
    rw [h]; norm_num [List.sum_cons]
  have hd : (weightsOf .TRI6 .mass).sum - 1 / 2 = -(145517 / 10 ^ 16) := by
    rw [hs]; norm_num
  refine ⟨hs, ?_⟩
  rw [hd, abs_neg, abs_of_pos (by norm_num : (0 : ℝ) < 145517 / 10 ^ 16)]
  norm_num

/-- C2 counterexample: the 6-point prism rule's weights sum to `1`, the
measure of the reference prism (unit-triangle base times `[-1, 1]` thickness),
not to `0.5` as claimed. -/
theorem prism6_weight_sum_is_one_not_half :
    (Gauss_Prism 6).2.2.2.sum = 1 ∧ (1 : ℝ) ≠ 1 / 2 := by
  have h : (Gauss_Prism 6).2.2.2 =
      [1 / 6, 1 / 6, 1 / 6, 1 / 6, 1 / 6, 1 / 6] := rfl
  rw [h]
  norm_num [List.sum_cons]

/-- C2 amended: both prism rules' weights sum to `1`, the measure of the
reference prism, and this holds for the 8-point rule even though it contains
the negative weight `-27/96`. -/
theorem prism_weight_sums_equal_one :
    (Gauss_Prism 6).2.2.2.sum = 1 ∧ (Gauss_Prism 8).2.2.2.sum = 1 ∧
    (-27 / 96 : ℝ) ∈ (Gauss_Prism 8).2.2.2 ∧ (-27 / 96 : ℝ) < 0 := by
  have h6 : (Gauss_Prism 6).2.2.2 =
      [1 / 6, 1 / 6, 1 / 6, 1 / 6, 1 / 6, 1 / 6] := rfl
  have h8 : (Gauss_Prism 8).2.2.2 =
      [-27 / 96, 25 / 96, 25 / 96, 25 / 96,
       -27 / 96, 25 / 96, 25 / 96, 25 / 96] := rfl
  refine ⟨by rw [h6]; norm_num [List.sum_cons],
          by rw [h8]; norm_num [List.sum_cons],
          by rw [h8]; simp,
          by norm_num⟩

/-- C4 counterexample: the pair `(TRI3, beam)` has no point-count entry, yet
rule construction does not fail with a configuration error naming the pair —
it fails with Python's unbound-local error on `nPg`; and the only
message-carrying exception the factory ever raises is the fixed string
`"Element not implemented."` (shown here for an uncatalogued type), which
names no shape/precision pair. -/
theorem unsupported_pair_fails_with_unbound_local :
    Gauss_factory .TRI3 .beam = .error (.unboundLocal "nPg") ∧
    Gauss_factory (.other "POINT") .beam =
      .error (.notImplemented "Element not implemented.") :=
  ⟨rfl, rfl⟩

/-- C4 amended: a pair with no point-count entry never yields a rule and never
falls back to a default — but the failure is not a configuration error naming
the pair: uncatalogued element types raise the fixed
`"Element not implemented."` exception, and catalogued element types whose
matrix type has no entry die on an unbound local (`nPg` or `x`), exactly as
`failureTable` records; every other pair succeeds. -/
theorem factory_failure_modes :
    ∀ (e : ElemType) (m : MatrixType),
      exceptError (Gauss_factory e m) = failureTable e m := by
  intro e m
  cases e <;> cases m <;> rfl

/-- C9: the `"Element not implemented."` exception is raised exactly for
element types outside the catalogued set, whatever the matrix type; each
catalogued element type paired with the beam matrix type but lacking a
point-count entry instead fails with an unbound-local error (`nPg` when the
generator call follows the selection ladder, `x` at the final reshape when it
sits inside the matrix-type guard), so no rule is produced there either. -/
theorem not_implemented_iff_uncatalogued :
    (∀ (e : ElemType) (m : MatrixType),
      exceptError (Gauss_factory e m) =
          some (.notImplemented "Element not implemented.") ↔
        catalogued e = false) ∧
    Gauss_factory .TRI3 .beam = .error (.unboundLocal "nPg") ∧
    Gauss_factory .TRI6 .beam = .error (.unboundLocal "nPg") ∧
    Gauss_factory .QUAD8 .beam = .error (.unboundLocal "nPg") ∧
    Gauss_factory .TETRA4 .beam = .error (.unboundLocal "nPg") ∧
    Gauss_factory .HEXA8 .beam = .error (.unboundLocal "x") ∧
    Gauss_factory .HEXA20 .beam = .error (.unboundLocal "x") ∧
    Gauss_factory .PRISM6 .beam = .error (.unboundLocal "x") ∧
    Gauss_factory .PRISM15 .beam = .error (.unboundLocal "x") := by
  refine ⟨fun e m => ?_, rfl, rfl, rfl, rfl, rfl, rfl, rfl, rfl⟩
  cases e <;> cases m <;> simp [Gauss_factory, exceptError, catalogued]

end EasyFEA

namespace EasyFEA

lemma one_le_sqrt3 : (1 : ℝ) ≤ Real.sqrt 3 := by
  nlinarith [Real.sq_sqrt (show (0 : ℝ) ≤ 3 by norm_num), Real.sqrt_nonneg 3]

lemma inv_sqrt3_nonneg : (0 : ℝ) ≤ 1 / Real.sqrt 3 := by positivity

lemma inv_sqrt3_le_one : (1 : ℝ) / Real.sqrt 3 ≤ 1 := by
  rw [div_le_one (by positivity)]
  exact one_le_sqrt3

lemma two_le_sqrt5 : (2 : ℝ) ≤ Real.sqrt 5 := by
  nlinarith [Real.sq_sqrt (show (0 : ℝ) ≤ 5 by norm_num), Real.sqrt_nonneg 5]

lemma sqrt5_le_three : Real.sqrt 5 ≤ 3 := by
  nlinarith [Real.sq_sqrt (show (0 : ℝ) ≤ 5 by norm_num), Real.sqrt_nonneg 5]

lemma tri1_dom : (mk2 (Gauss_Triangle 1)).1.Forall inTriangleDom := by
  have h : (mk2 (Gauss_Triangle 1)).1 = [[1 / 3, 1 / 3]] := rfl
  rw [h]; simp only [List.Forall, inTriangleDom]; norm_num

lemma tri3_dom : (mk2 (Gauss_Triangle 3)).1.Forall inTriangleDom := by
  have h : (mk2 (Gauss_Triangle 3)).1 =
      [[1 / 6, 1 / 6], [2 / 3, 1 / 6], [1 / 6, 2 / 3]] := rfl
  rw [h]; simp only [List.Forall, inTriangleDom]; norm_num

lemma tri6_dom : (mk2 (Gauss_Triangle 6)).1.Forall inTriangleDom := by
  have h : (mk2 (Gauss_Triangle 6)).1 =
      [[0.091576213509771, 0.091576213509771],
       [1 - 2 * 0.091576213509771, 0.091576213509771],
       [0.091576213509771, 1 - 2 * 0.091576213509771],
       [0.445948490915965, 1 - 2 * 0.445948490915965],
       [0.445948490915965, 0.445948490915965],
       [1 - 2 * 0.445948490915965, 0.445948490915965]] := rfl
  rw [h]; simp only [List.Forall, inTriangleDom]; norm_num

lemma quad4_dom : (mk2 (Gauss_Quadrangle 4)).1.Forall inBoxDom := by
  have h : (mk2 (Gauss_Quadrangle 4)).1 =
      [[-(1 / Real.sqrt 3), -(1 / Real.sqrt 3)],
       [1 / Real.sqrt 3, -(1 / Real.sqrt 3)],
       [1 / Real.sqrt 3, 1 / Real.sqrt 3],
       [-(1 / Real.sqrt 3), 1 / Real.sqrt 3]] := rfl
  rw [h]; simp only [List.Forall, inBoxDom]
  repeat' apply And.intro
  all_goals linarith [inv_sqrt3_nonneg, inv_sqrt3_le_one]

lemma quad9_dom : (mk2 (Gauss_Quadrangle 9)).1.Forall inBoxDom := by
  have h : (mk2 (Gauss_Quadrangle 9)).1 =
      [[-0.774596669241483, -0.774596669241483],
       [0.774596669241483, -0.774596669241483],
       [0.774596669241483, 0.774596669241483],
       [-0.774596669241483, 0.774596669241483],
       [0, -0.774596669241483], [0.774596669241483, 0],
       [0, 0.774596669241483], [-0.774596669241483, 0], [0, 0]] := rfl
  rw [h]; simp only [List.Forall, inBoxDom]; norm_num

lemma tet1_dom : (mk3 (Gauss_Tetrahedron 1)).1.Forall inTetraDom := by
  have h : (mk3 (Gauss_Tetrahedron 1)).1 = [[1 / 4, 1 / 4, 1 / 4]] := rfl
  rw [h]; simp only [List.Forall, inTetraDom]; norm_num

lemma tet4_dom : (mk3 (Gauss_Tetrahedron 4)).1.Forall inTetraDom := by
  have h : (mk3 (Gauss_Tetrahedron 4)).1 =
      [[(5 - Real.sqrt 5) / 20, (5 - Real.sqrt 5) / 20, (5 - Real.sqrt 5) / 20],
       [(5 - Real.sqrt 5) / 20, (5 - Real.sqrt 5) / 20,
        (5 + 3 * Real.sqrt 5) / 20],
       [(5 - Real.sqrt 5) / 20, (5 + 3 * Real.sqrt 5) / 20,
        (5 - Real.sqrt 5) / 20],
       [(5 + 3 * Real.sqrt 5) / 20, (5 - Real.sqrt 5) / 20,
        (5 - Real.sqrt 5) / 20]] := rfl
  rw [h]; simp only [List.Forall, inTetraDom]
  repeat' apply And.intro
  all_goals linarith [two_le_sqrt5, sqrt5_le_three]

lemma hex8_dom : (mk3 (Gauss_Hexahedron 8)).1.Forall inBoxDom := by
  have h : (mk3 (Gauss_Hexahedron 8)).1 =
      [[-(1 / Real.sqrt 3), -(1 / Real.sqrt 3), -(1 / Real.sqrt 3)],
       [-(1 / Real.sqrt 3), -(1 / Real.sqrt 3), 1 / Real.sqrt 3],
       [-(1 / Real.sqrt 3), 1 / Real.sqrt 3, -(1 / Real.sqrt 3)],
       [-(1 / Real.sqrt 3), 1 / Real.sqrt 3, 1 / Real.sqrt 3],
       [1 / Real.sqrt 3, -(1 / Real.sqrt 3), -(1 / Real.sqrt 3)],
       [1 / Real.sqrt 3, -(1 / Real.sqrt 3), 1 / Real.sqrt 3],
       [1 / Real.sqrt 3, 1 / Real.sqrt 3, -(1 / Real.sqrt 3)],
       [1 / Real.sqrt 3, 1 / Real.sqrt 3, 1 / Real.sqrt 3]] := rfl
  rw [h]; simp only [List.Forall, inBoxDom]
  repeat' apply And.intro
  all_goals linarith [inv_sqrt3_nonneg, inv_sqrt3_le_one]

lemma prism6_dom : (mk3 (Gauss_Prism 6)).1.Forall inPrismDom := by
  have h : (mk3 (Gauss_Prism 6)).1 =
      [[0.5, 0.5, -(1 / Real.sqrt 3)], [0, 0.5, -(1 / Real.sqrt 3)],
       [0.5, 0, -(1 / Real.sqrt 3)], [0.5, 0.5, 1 / Real.sqrt 3],
       [0, 0.5, 1 / Real.sqrt 3], [0.5, 0, 1 / Real.sqrt 3]] := rfl
  rw [h]; simp only [List.Forall, inPrismDom]
  repeat' apply And.intro
  all_goals linarith [inv_sqrt3_nonneg, inv_sqrt3_le_one]

/-- C8: for every catalogued `(elemType, matrixType)` pair, every generated
integration point lies within (or on the boundary of) the shape's canonical
reference domain — the unit triangle for the triangle family, the `[-1, 1]`
box for the quadrilateral and hexahedron families, the unit tetrahedron for
the tetrahedron family, and the unit-triangle-times-`[-1, 1]` prism for the
prism family. -/
theorem coords_lie_in_reference_domain :
    ∀ (e : ElemType) (m : MatrixType), refDomainOK e (coordsOf e m) := by
  intro e m
  cases e <;> cases m <;>
    first
      | trivial
      | exact tri1_dom
      | exact tri3_dom
      | exact tri6_dom
      | exact quad4_dom
      | exact quad9_dom
      | exact tet1_dom
      | exact tet4_dom
      | exact hex8_dom
      | exact prism6_dom

end EasyFEA

namespace EasyFEA

lemma prism6_inplane_set :
    {p : ℝ × ℝ | p ∈ Prism6_Y.zip Prism6_Z} =
      ({(0.5, 0.5), (0, 0.5), (0.5, 0)} : Set (ℝ × ℝ)) := by
  ext p
  simp [Prism6_Y, Prism6_Z]
  tauto

lemma prism6_inplane_ncard :
    {p : ℝ × ℝ | p ∈ Prism6_Y.zip Prism6_Z}.ncard = 3 := by
  rw [prism6_inplane_set,
    Set.ncard_insert_of_not_mem
      (by norm_num [Set.mem_insert_iff, Set.mem_singleton_iff, Prod.ext_iff]),
    Set.ncard_pair (by norm_num [Prod.ext_iff])]

lemma prism8_inplane_set :
    {p : ℝ × ℝ | p ∈ Prism8_Y.zip Prism8_Z} =
      ({(1 / 3, 1 / 3), (0.6, 0.2), (0.2, 0.6), (0.2, 0.2)} : Set (ℝ × ℝ)) := by
  ext p
  simp [Prism8_Y, Prism8_Z]
  tauto

lemma prism8_inplane_ncard :
    {p : ℝ × ℝ | p ∈ Prism8_Y.zip Prism8_Z}.ncard = 4 := by
  rw [prism8_inplane_set,
    Set.ncard_insert_of_not_mem
      (by norm_num [Set.mem_insert_iff, Set.mem_singleton_iff, Prod.ext_iff]),
    Set.ncard_insert_of_not_mem
      (by norm_num [Set.mem_insert_iff, Set.mem_singleton_iff, Prod.ext_iff]),
    Set.ncard_pair (by norm_num [Prod.ext_iff])]

lemma prism6_thickness_set :
    {t : ℝ | t ∈ Prism6_X} =
      ({-(1 / Real.sqrt 3), 1 / Real.sqrt 3} : Set ℝ) := by
  ext t
  simp [Prism6_X]

lemma prism6_thickness_ncard : {t : ℝ | t ∈ Prism6_X}.ncard = 2 := by
  rw [prism6_thickness_set]
  have h : (0 : ℝ) < 1 / Real.sqrt 3 := by positivity
  exact Set.ncard_pair (by linarith)

lemma prism8_thickness_set :
    {t : ℝ | t ∈ Prism8_X} =
      ({-0.577350269189626, 0.577350269189626} : Set ℝ) := by
  ext t
  simp [Prism8_X]

lemma prism8_thickness_ncard : {t : ℝ | t ∈ Prism8_X}.ncard = 2 := by
  rw [prism8_thickness_set]
  exact Set.ncard_pair (by norm_num)

/-- C3 counterexample: the 6-point prism rule's in-plane (triangle-type)
sub-rule has exactly three distinct points — `(0.5, 0.5)`, `(0, 0.5)`,
`(0.5, 0)` — not two and not four, so the claimed "triangle-type rule (2 or 4
points in-plane)" is false for the 6-point rule. -/
theorem prism6_inplane_count_is_three :
    {p : ℝ × ℝ | p ∈ Prism6_Y.zip Prism6_Z}.ncard = 3 ∧
    ¬({p : ℝ × ℝ | p ∈ Prism6_Y.zip Prism6_Z}.ncard = 2 ∨
      {p : ℝ × ℝ | p ∈ Prism6_Y.zip Prism6_Z}.ncard = 4) := by
  refine ⟨prism6_inplane_ncard, ?_⟩
  rw [prism6_inplane_ncard]
  norm_num

/-- C3 amended: each prism rule combines a triangle-type in-plane rule (3
points for the 6-point rule, 4 points for the 8-point rule) with a 2-point
line rule through the thickness — the exposed point list is exactly the
product of the in-plane point list with the two line nodes, and the exposed
weights the products of the corresponding weights — and the generator permutes
the axis order of the computed arrays before exposing them: the exposed
`(x, y, z)` are the computed `(Y, Z, X)`, so the through-thickness coordinate
computed in local `X` is exposed as `z` and the in-plane coordinates computed
in local `(Y, Z)` are exposed as `(x, y)`. -/
theorem prism_product_structure_and_axis_permutation :
    ((Gauss_Prism 6).1 = Prism6_Y ∧ (Gauss_Prism 6).2.1 = Prism6_Z ∧
      (Gauss_Prism 6).2.2.1 = Prism6_X) ∧
    ((Gauss_Prism 8).1 = Prism8_Y ∧ (Gauss_Prism 8).2.1 = Prism8_Z ∧
      (Gauss_Prism 8).2.2.1 = Prism8_X) ∧
    (mk3 (Gauss_Prism 6)).1 =
      ([-(1 / Real.sqrt 3), 1 / Real.sqrt 3].flatMap fun t =>
        [[(0.5 : ℝ), 0.5], [0, 0.5], [0.5, 0]].map fun p => p ++ [t]) ∧
    (mk3 (Gauss_Prism 6)).2 =
      ([(1 : ℝ), 1].flatMap fun c =>
        [(1 : ℝ) / 6, 1 / 6, 1 / 6].map fun w => c * w) ∧
    (mk3 (Gauss_Prism 8)).1 =
      ([(-0.577350269189626 : ℝ), 0.577350269189626].flatMap fun t =>
        [[(1 : ℝ) / 3, 1 / 3], [0.6, 0.2], [0.2, 0.6], [0.2, 0.2]].map
          fun p => p ++ [t]) ∧
    (mk3 (Gauss_Prism 8)).2 =
      ([(1 : ℝ), 1].flatMap fun c =>
        [(-27 : ℝ) / 96, 25 / 96, 25 / 96, 25 / 96].map fun w => c * w) ∧
    {p : ℝ × ℝ | p ∈ Prism6_Y.zip Prism6_Z}.ncard = 3 ∧
    {p : ℝ × ℝ | p ∈ Prism8_Y.zip Prism8_Z}.ncard = 4 ∧
    {t : ℝ | t ∈ Prism6_X}.ncard = 2 ∧
    {t : ℝ | t ∈ Prism8_X}.ncard = 2 := by
  refine ⟨⟨rfl, rfl, rfl⟩, ⟨rfl, rfl, rfl⟩, rfl, ?_, rfl, ?_,
    prism6_inplane_ncard, prism8_inplane_ncard,
    prism6_thickness_ncard, prism8_thickness_ncard⟩
  · have h : (mk3 (Gauss_Prism 6)).2 =
        [1 / 6, 1 / 6, 1 / 6, 1 / 6, 1 / 6, 1 / 6] := rfl
    rw [h]
    norm_num
  · have h : (mk3 (Gauss_Prism 8)).2 =
        [-27 / 96, 25 / 96, 25 / 96, 25 / 96,
         -27 / 96, 25 / 96, 25 / 96, 25 / 96] := rfl
    rw [h]
    norm_num

end EasyFEA
